import Mathlib

/-!
Shallow embedding of the per-monitor duplication engine of uDesktopDuplication
(`Duplicator.cpp`).  HRESULT values are modelled as unsigned 32-bit naturals;
driver behaviour (the HRESULT returned by each COM call, the bytes written
through out-parameters, whether a texture conversion succeeds) is supplied by
explicit environment records, so every method of the `Duplicator` class becomes
a pure function from the object state and the environment to the new state.
-/

namespace UDesktopDuplication

/-- An HRESULT, modelled as its unsigned 32-bit value. -/
abbrev HResult := Nat

/-- `2^32`, the modulus of the C++ `UINT` type. -/
def UINT_MOD : Nat := 4294967296

def S_OK : HResult := 0
def E_INVALIDARG : HResult := 0x80070057
def E_ACCESSDENIED : HResult := 0x80070005
def DXGI_ERROR_UNSUPPORTED : HResult := 0x887A0004
def DXGI_ERROR_NOT_CURRENTLY_AVAILABLE : HResult := 0x887A0022
def DXGI_ERROR_SESSION_DISCONNECTED : HResult := 0x887A0028
def DXGI_ERROR_ACCESS_LOST : HResult := 0x887A0026
def DXGI_ERROR_WAIT_TIMEOUT : HResult := 0x887A0027
def DXGI_ERROR_INVALID_CALL : HResult := 0x887A0001
def DXGI_ERROR_MORE_DATA : HResult := 0x887A0003

/-- The `FAILED` macro: an HRESULT is a failure iff its sign bit is set. -/
def FAILED (hr : HResult) : Bool := decide (2147483648 ≤ hr)

/-- `UINT` subtraction, wrapping modulo `2^32` (used for
`metaData_.buffer.Size() - metaData_.moveRectSize`). -/
def uintSub (a b : Nat) : Nat := (a + UINT_MOD - b % UINT_MOD) % UINT_MOD

/-- `Duplicator::State` (declared in `Duplicator.h`; the constructor names are
the ones the spec lists and the source assigns). -/
inductive State where
  | Ready
  | Running
  | AccessLost
  | AccessDenied
  | Unsupported
  | CurrentlyNotAvailable
  | SessionDisconnected
  | InvalidArg
  | Unknown
  deriving DecidableEq, Repr

/-- Modelled from the spec: the growable metadata byte buffer (class `Buffer`
in `Common.h`, which is not under `src/`).  Per spec §3 and §4.4 it grows
monotonically to the largest size ever requested and never shrinks;
`ExpandIfNeeded` grows the allocation, `Empty` tests for a zero-sized
allocation, `Size` returns the current allocation size in bytes. -/
structure MetadataBuffer where
  size : Nat
  deriving DecidableEq, Repr

/-- `Buffer::ExpandIfNeeded(totalBufferSize)`: grow to the requested size if
larger, never shrink (modelled from the spec, see `MetadataBuffer`).  The
argument is a `UINT`, hence the reduction modulo `2^32`. -/
def MetadataBuffer.expandIfNeeded (b : MetadataBuffer) (requested : Nat) :
    MetadataBuffer :=
  { size := max b.size (requested % UINT_MOD) }

/-- `Buffer::Empty()`. -/
def MetadataBuffer.isEmpty (b : MetadataBuffer) : Bool := decide (b.size = 0)

/-- The `metaData_` member: the byte buffer plus the two `UINT` byte counts
written by the move-rectangle and dirty-rectangle requests. -/
structure MetaData where
  buffer : MetadataBuffer
  moveRectSize : Nat
  dirtyRectSize : Nat
  deriving DecidableEq, Repr

/-- The fields of `DXGI_OUTDUPL_FRAME_INFO` the duplicator reads. -/
structure FrameInfo where
  totalMetadataBufferSize : Nat
  pointerVisible : Bool
  deriving DecidableEq, Repr

/-- `Duplicator::Frame`: the published snapshot (the shared-texture handle is
opaque to the logic modelled here and is omitted). -/
structure Frame where
  id : Nat
  info : FrameInfo
  metaData : MetaData
  deriving DecidableEq, Repr

/-- The state of one `Duplicator` object.  `hasDupl` and `hasDevice` model the
null tests `!dupl_ || !device_`. -/
structure Duplicator where
  state : State
  isFrameAcquired : Bool
  lastFrameId : Nat
  lastFrame : Option Frame
  metaData : MetaData
  hasDupl : Bool
  hasDevice : Bool
  deriving DecidableEq, Repr

/-- An adapter LUID (`DXGI_ADAPTER_DESC::AdapterLuid`). -/
structure Luid where
  lowPart : Nat
  highPart : Nat
  deriving DecidableEq, Repr

/-- `Duplicator::InitializeDevice()`: `device_` is always assigned
(`make_shared`); if `IsolatedD3D11Device::Create` fails the state becomes
`Unknown`. -/
def initializeDevice (d : Duplicator) (createOk : Bool) : Duplicator :=
  let d := { d with hasDevice := true }
  if createOk then d else { d with state := State.Unknown }

/-- `Duplicator::InitializeDuplication()`: early return if the output cannot
be converted to `IDXGIOutput1`; otherwise switch on the HRESULT of
`DuplicateOutput` exactly as the source does. -/
def initializeDuplication (d : Duplicator) (outputAsOk : Bool) (hr : HResult) :
    Duplicator :=
  if outputAsOk = false then d
  else if hr = S_OK then { d with state := State.Ready, hasDupl := true }
  else if hr = E_INVALIDARG then { d with state := State.InvalidArg }
  else if hr = E_ACCESSDENIED then { d with state := State.AccessDenied }
  else if hr = DXGI_ERROR_UNSUPPORTED then { d with state := State.Unsupported }
  else if hr = DXGI_ERROR_NOT_CURRENTLY_AVAILABLE then
    { d with state := State.CurrentlyNotAvailable }
  else if hr = DXGI_ERROR_SESSION_DISCONNECTED then
    { d with state := State.SessionDisconnected }
  else { d with state := State.Unknown }

/-- `Duplicator::CheckUnityAdapter()`: force `Unsupported` unless the capture
adapter LUID equals the Unity adapter LUID in both parts. -/
def checkUnityAdapter (d : Duplicator) (adapterLuid unityLuid : Luid) :
    Duplicator :=
  if adapterLuid.lowPart = unityLuid.lowPart ∧
      adapterLuid.highPart = unityLuid.highPart then d
  else { d with state := State.Unsupported }

/-- The environment of the constructor: the initial member value of `state_`
(declared in `Duplicator.h`, not under `src/`), whether device creation and
the `IDXGIOutput1` conversion succeed, the HRESULT of `DuplicateOutput`, and
the two adapter LUIDs compared by `CheckUnityAdapter`. -/
structure ConstructEnv where
  initState : State
  deviceCreateOk : Bool
  outputAsOk : Bool
  duplHr : HResult
  adapterLuid : Luid
  unityLuid : Luid
  deriving DecidableEq, Repr

/-- A freshly declared `Duplicator` object before the constructor body runs. -/
def initialDuplicator (s : State) : Duplicator :=
  { state := s
    isFrameAcquired := false
    lastFrameId := 0
    lastFrame := none
    metaData := { buffer := { size := 0 }, moveRectSize := 0, dirtyRectSize := 0 }
    hasDupl := false
    hasDevice := false }

/-- `Duplicator::Duplicator(monitor)`: `InitializeDevice`, then
`InitializeDuplication`, then `CheckUnityAdapter`, in that order. -/
def construct (env : ConstructEnv) : Duplicator :=
  let d := initialDuplicator env.initState
  let d := initializeDevice d env.deviceCreateOk
  let d := initializeDuplication d env.outputAsOk env.duplHr
  checkUnityAdapter d env.adapterLuid env.unityLuid

/-- `Duplicator::Release()`: act only if a frame is held; switch on the
HRESULT of `ReleaseFrame` (`ACCESS_LOST` sets `AccessLost`, `INVALID_CALL`
only logs, any other failure sets `Unknown`); always clear the held flag. -/
def release (d : Duplicator) (hr : HResult) : Duplicator :=
  if d.isFrameAcquired = false then d
  else
    let d1 :=
      if FAILED hr then
        if hr = DXGI_ERROR_ACCESS_LOST then { d with state := State.AccessLost }
        else if hr = DXGI_ERROR_INVALID_CALL then d
        else { d with state := State.Unknown }
      else d
    { d1 with isFrameAcquired := false }

/-- The arguments of one metadata request: the buffer-size argument passed to
the driver and the byte offset into the metadata buffer where it writes. -/
structure ReqArgs where
  bufSize : Nat
  offset : Nat
  deriving DecidableEq, Repr

/-- `Duplicator::UpdateMoveRects()`: call `GetFrameMoveRects` with the whole
buffer (`Size()` bytes at offset 0); the driver writes the `UINT`
`metaData_.moveRectSize` through the out-parameter (value supplied by the
environment; on a failure that leaves it untouched the environment supplies
the old value); every HRESULT branch only logs, none assigns `state_`. -/
def updateMoveRects (d : Duplicator) (hr : HResult) (outBytes : Nat) :
    Duplicator × ReqArgs :=
  let _ := hr
  ({ d with metaData := { d.metaData with moveRectSize := outBytes % UINT_MOD } },
   { bufSize := d.metaData.buffer.size, offset := 0 })

/-- `Duplicator::UpdateDirtyRects()`: call `GetFrameDirtyRects` with
`Size() - moveRectSize` bytes (`UINT` subtraction) at byte offset
`moveRectSize`; the driver writes the `UINT` `metaData_.dirtyRectSize`; every
HRESULT branch only logs, none assigns `state_`. -/
def updateDirtyRects (d : Duplicator) (hr : HResult) (outBytes : Nat) :
    Duplicator × ReqArgs :=
  let _ := hr
  ({ d with metaData := { d.metaData with dirtyRectSize := outBytes % UINT_MOD } },
   { bufSize := uintSub d.metaData.buffer.size d.metaData.moveRectSize
     offset := d.metaData.moveRectSize })

/-- `Duplicator::UpdateMetadata(totalBufferSize)`: grow the buffer, then, if it
is non-empty, run the move-rectangle request followed by the dirty-rectangle
request.  Besides the new object state it returns the arguments of the two
requests that were issued (`none` when the buffer stayed empty). -/
def updateMetadata (d : Duplicator) (totalBufferSize : Nat)
    (moveHr : HResult) (moveOut : Nat) (dirtyHr : HResult) (dirtyOut : Nat) :
    Duplicator × Option ReqArgs × Option ReqArgs :=
  let d := { d with metaData :=
    { d.metaData with buffer := d.metaData.buffer.expandIfNeeded totalBufferSize } }
  if d.metaData.buffer.isEmpty then (d, none, none)
  else
    let (d, moveArgs) := updateMoveRects d moveHr moveOut
    let (d, dirtyArgs) := updateDirtyRects d dirtyHr dirtyOut
    (d, some moveArgs, some dirtyArgs)

/-- The switch on a failed `AcquireNextFrame` HRESULT inside
`Duplicator::Duplicate`: `ACCESS_LOST` sets `AccessLost`; `WAIT_TIMEOUT`,
`INVALID_CALL` and `E_INVALIDARG` leave the state unchanged (the latter two
log); the default branch sets `Unknown`. -/
def acquireFail (d : Duplicator) (hr : HResult) : Duplicator :=
  if hr = DXGI_ERROR_ACCESS_LOST then { d with state := State.AccessLost }
  else if hr = DXGI_ERROR_WAIT_TIMEOUT then d
  else if hr = DXGI_ERROR_INVALID_CALL then d
  else if hr = E_INVALIDARG then d
  else { d with state := State.Unknown }

/-- The environment of one `Duplicate(timeout)` call: the HRESULT the pending
`ReleaseFrame` would return, the HRESULT and frame info of
`AcquireNextFrame`, whether the `IDXGIResource` converts to a texture,
whether `GetCompatibleSharedTexture` returns non-null, and the results of the
two metadata requests. -/
structure TickEnv where
  releaseHr : HResult
  acquireHr : HResult
  frameInfo : FrameInfo
  resourceAsOk : Bool
  sharedTextureOk : Bool
  moveHr : HResult
  moveOut : Nat
  dirtyHr : HResult
  dirtyOut : Nat
  deriving DecidableEq, Repr

/-- `Duplicator::Duplicate(timeout)`: return if either handle is null; release
any held frame; acquire; on failure run the failure switch; on success mark
the frame held, bail out if the conversion or the shared texture fails, copy
(GPU side, no object state), update the cursor (touches only collaborator
objects), update the metadata, and publish a new frame with the
post-incremented `UINT` counter `lastFrameId_`. -/
def duplicate (d : Duplicator) (env : TickEnv) : Duplicator :=
  if d.hasDupl = false ∨ d.hasDevice = false then d
  else
    let d := release d env.releaseHr
    if FAILED env.acquireHr then acquireFail d env.acquireHr
    else
      let d := { d with isFrameAcquired := true }
      if env.resourceAsOk = false then d
      else if env.sharedTextureOk = false then d
      else
        let d := (updateMetadata d env.frameInfo.totalMetadataBufferSize
          env.moveHr env.moveOut env.dirtyHr env.dirtyOut).1
        { d with
          lastFrame := some
            { id := d.lastFrameId, info := env.frameInfo, metaData := d.metaData }
          lastFrameId := (d.lastFrameId + 1) % UINT_MOD }

/-- The thread-facing part of a `Duplicator` used by `Start`/`Stop`: the state,
whether the `std::thread` member is joinable, and the run flag. -/
structure Session where
  state : State
  threadJoinable : Bool
  shouldRun : Bool
  deriving DecidableEq, Repr

/-- `Duplicator::Stop()`: clear the run flag and join the thread if joinable
(after `join`, the thread object is no longer joinable). -/
def stop (s : Session) : Session :=
  { s with shouldRun := false, threadJoinable := false }

/-- The synchronous effect of one `Start()` call: the new session, whether
`Stop()` was executed (joining any existing thread), and whether a new capture
thread was spawned.  The spawned thread body runs asynchronously and is not
part of this record. -/
structure StartEffect where
  session : Session
  calledStop : Bool
  spawned : Bool
  deriving DecidableEq, Repr

/-- `Duplicator::Start()`: return immediately unless the state is `Ready`;
otherwise run `Stop()` (joining any existing capture thread) and only then
construct the new `std::thread`. -/
def start (s : Session) : StartEffect :=
  if s.state ≠ State.Ready then { session := s, calledStop := false, spawned := false }
  else
    let s := stop s
    { session := { s with threadJoinable := true }, calledStop := true, spawned := true }

/-! ## Theorems -/

/-- The initialization mapping table as the spec states it (spec §4.2 / §8),
written from the spec words for comparison with `initializeDuplication`. -/
def specInitStateMap (hr : HResult) : State :=
  if hr = E_INVALIDARG then State.InvalidArg
  else if hr = E_ACCESSDENIED then State.AccessDenied
  else if hr = DXGI_ERROR_UNSUPPORTED then State.Unsupported
  else if hr = DXGI_ERROR_NOT_CURRENTLY_AVAILABLE then State.CurrentlyNotAvailable
  else if hr = DXGI_ERROR_SESSION_DISCONNECTED then State.SessionDisconnected
  else if hr = S_OK then State.Ready
  else State.Unknown

/-- C1: for every HRESULT returned by `DuplicateOutput` at initialization, the
resulting session state is exactly the spec's mapping table: invalid-args →
`InvalidArg`, access-denied → `AccessDenied`, unsupported → `Unsupported`,
not-currently-available → `CurrentlyNotAvailable`, session-disconnected →
`SessionDisconnected`, success → `Ready`, anything else → `Unknown`. -/
theorem initializeDuplication_matches_spec_map (d : Duplicator) (hr : HResult) :
    (initializeDuplication d true hr).state = specInitStateMap hr := by
  simp only [initializeDuplication, specInitStateMap]
  split_ifs <;> simp_all [S_OK, E_INVALIDARG, E_ACCESSDENIED,
    DXGI_ERROR_UNSUPPORTED, DXGI_ERROR_NOT_CURRENTLY_AVAILABLE,
    DXGI_ERROR_SESSION_DISCONNECTED]

/-- C3: whenever the capture adapter LUID differs from the Unity adapter LUID
in either part, the state after the whole constructor is `Unsupported`, for
every environment — in particular even when `DuplicateOutput` succeeded and
had set the state to `Ready`. -/
theorem construct_adapter_mismatch_unsupported (env : ConstructEnv)
    (h : ¬(env.adapterLuid.lowPart = env.unityLuid.lowPart ∧
        env.adapterLuid.highPart = env.unityLuid.highPart)) :
    (construct env).state = State.Unsupported := by
  simp [construct, checkUnityAdapter, h]

/-- A constructor environment where `DuplicateOutput` succeeds but the capture
adapter differs from the Unity adapter. -/
def mismatchEnv : ConstructEnv :=
  { initState := State.Ready
    deviceCreateOk := true
    outputAsOk := true
    duplHr := S_OK
    adapterLuid := { lowPart := 1, highPart := 0 }
    unityLuid := { lowPart := 2, highPart := 0 } }

theorem construct_adapter_mismatch_unsupported_witness :
    (construct mismatchEnv).state = State.Unsupported :=
  construct_adapter_mismatch_unsupported mismatchEnv (by decide)

/-- A duplicator mid-run that currently holds an acquired frame, with both
handles non-null (a state reached after any fully successful tick). -/
def heldFrameDup : Duplicator :=
  { state := State.Running
    isFrameAcquired := true
    lastFrameId := 5
    lastFrame := none
    metaData := { buffer := { size := 0 }, moveRectSize := 0, dirtyRectSize := 0 }
    hasDupl := true
    hasDevice := true }

/-- C4 counterexample: a `ReleaseFrame` failure with `DXGI_ERROR_INVALID_CALL`
does NOT set the state to `Unknown` — the source only logs it and leaves the
state unchanged (here `Running`). -/
theorem release_invalid_call_keeps_state :
    (release heldFrameDup DXGI_ERROR_INVALID_CALL).state = State.Running ∧
    State.Running ≠ State.Unknown := by decide

/-- C4 amended: in the release-error mapping, access-lost sets `AccessLost`,
invalid-call is logged and leaves the state unchanged, and every other failure
code sets the state to `Unknown`. -/
theorem release_failure_mapping (d : Duplicator) (hr : HResult)
    (hheld : d.isFrameAcquired = true) (hf : FAILED hr = true) :
    (hr = DXGI_ERROR_ACCESS_LOST → (release d hr).state = State.AccessLost) ∧
    (hr = DXGI_ERROR_INVALID_CALL → (release d hr).state = d.state) ∧
    (hr ≠ DXGI_ERROR_ACCESS_LOST → hr ≠ DXGI_ERROR_INVALID_CALL →
      (release d hr).state = State.Unknown) := by
  obtain ⟨st, acq, lid, lf, md, hdu, hde⟩ := d
  simp only at hheld
  subst hheld
  refine ⟨fun h1 => ?_, fun h1 => ?_, fun h1 h2 => ?_⟩
  · subst h1; rfl
  · subst h1; rfl
  · simp [release, hf, h1, h2]

theorem release_failure_mapping_witness :
    (release heldFrameDup DXGI_ERROR_ACCESS_LOST).state = State.AccessLost :=
  (release_failure_mapping heldFrameDup DXGI_ERROR_ACCESS_LOST rfl (by decide)).1
    rfl

/-- C9: `Release()` is a no-op when no frame is held, and whenever a frame is
held it clears the held-frame flag, whatever HRESULT `ReleaseFrame` returns. -/
theorem release_noop_and_clears_flag (d : Duplicator) (hr : HResult) :
    (d.isFrameAcquired = false → release d hr = d) ∧
    (d.isFrameAcquired = true → (release d hr).isFrameAcquired = false) := by
  constructor
  · intro h; simp [release, h]
  · intro h
    obtain ⟨st, acq, lid, lf, md, hdu, hde⟩ := d
    simp only at h
    subst h
    simp [release]

theorem release_noop_and_clears_flag_witness :
    release (initialDuplicator State.Ready) S_OK = initialDuplicator State.Ready ∧
    (release heldFrameDup DXGI_ERROR_WAIT_TIMEOUT).isFrameAcquired = false :=
  ⟨(release_noop_and_clears_flag (initialDuplicator State.Ready) S_OK).1 rfl,
   (release_noop_and_clears_flag heldFrameDup DXGI_ERROR_WAIT_TIMEOUT).2 rfl⟩

/-- `Release()` does nothing when no frame is held (helper lemma). -/
theorem release_not_held (d : Duplicator) (h : d.isFrameAcquired = false)
    (hr : HResult) : release d hr = d := by
  simp [release, h]

/-- When both handles are non-null and acquisition fails, a tick is the
pending release followed by the acquisition-failure switch (helper lemma). -/
theorem duplicate_fail_eq (d : Duplicator) (env : TickEnv)
    (hdu : d.hasDupl = true) (hde : d.hasDevice = true)
    (hf : FAILED env.acquireHr = true) :
    duplicate d env = acquireFail (release d env.releaseHr) env.acquireHr := by
  simp [duplicate, hdu, hde, hf]

/-- The tick environment of the C2 counterexample: the pending release of the
held frame fails with access-lost, then acquisition fails with wait-timeout. -/
def timeoutAfterLostReleaseEnv : TickEnv :=
  { releaseHr := DXGI_ERROR_ACCESS_LOST
    acquireHr := DXGI_ERROR_WAIT_TIMEOUT
    frameInfo := { totalMetadataBufferSize := 0, pointerVisible := false }
    resourceAsOk := true
    sharedTextureOk := true
    moveHr := S_OK
    moveOut := 0
    dirtyHr := S_OK
    dirtyOut := 0 }

/-- C2 counterexample: a tick whose acquisition fails with wait-timeout can
still change the state — the tick first releases the frame held from the
previous tick, and if that `ReleaseFrame` fails with access-lost the state
moves from `Running` to `AccessLost` even though the acquisition failure was
wait-timeout. -/
theorem duplicate_wait_timeout_state_can_change :
    heldFrameDup.state = State.Running ∧
    timeoutAfterLostReleaseEnv.acquireHr = DXGI_ERROR_WAIT_TIMEOUT ∧
    (duplicate heldFrameDup timeoutAfterLostReleaseEnv).state = State.AccessLost := by
  decide

/-- C2 amended: relative to the state left by the tick's entry release of any
previously held frame, the acquisition-failure mapping is exact: access-lost →
`AccessLost`; wait-timeout, invalid-call and invalid-args leave the state
unchanged; any other failure code → `Unknown`.  In particular, a tick entered
with no held frame that fails with wait-timeout leaves the state exactly as it
was before the tick. -/
theorem duplicate_acquire_failure_mapping (d : Duplicator) (env : TickEnv)
    (hdu : d.hasDupl = true) (hde : d.hasDevice = true)
    (hf : FAILED env.acquireHr = true) :
    (env.acquireHr = DXGI_ERROR_ACCESS_LOST →
      (duplicate d env).state = State.AccessLost) ∧
    (env.acquireHr = DXGI_ERROR_WAIT_TIMEOUT →
      (duplicate d env).state = (release d env.releaseHr).state) ∧
    (env.acquireHr = DXGI_ERROR_INVALID_CALL →
      (duplicate d env).state = (release d env.releaseHr).state) ∧
    (env.acquireHr = E_INVALIDARG →
      (duplicate d env).state = (release d env.releaseHr).state) ∧
    (env.acquireHr ≠ DXGI_ERROR_ACCESS_LOST →
      env.acquireHr ≠ DXGI_ERROR_WAIT_TIMEOUT →
      env.acquireHr ≠ DXGI_ERROR_INVALID_CALL →
      env.acquireHr ≠ E_INVALIDARG →
      (duplicate d env).state = State.Unknown) ∧
    (d.isFrameAcquired = false → env.acquireHr = DXGI_ERROR_WAIT_TIMEOUT →
      (duplicate d env).state = d.state) := by
  rw [duplicate_fail_eq d env hdu hde hf]
  refine ⟨fun h1 => ?_, fun h1 => ?_, fun h1 => ?_, fun h1 => ?_,
    fun h1 h2 h3 h4 => ?_, fun h0 h1 => ?_⟩
  · rw [h1]; rfl
  · rw [h1]; rfl
  · rw [h1]; rfl
  · rw [h1]; rfl
  · simp [acquireFail, h1, h2, h3, h4]
  · rw [h1, release_not_held d h0 env.releaseHr]; rfl

theorem duplicate_acquire_failure_mapping_witness :
    (duplicate heldFrameDup timeoutAfterLostReleaseEnv).state =
      (release heldFrameDup timeoutAfterLostReleaseEnv.releaseHr).state :=
  (duplicate_acquire_failure_mapping heldFrameDup timeoutAfterLostReleaseEnv rfl
    rfl (by decide)).2.1 rfl

/-- A session whose capture loop is currently running. -/
def runningSession : Session :=
  { state := State.Running, threadJoinable := true, shouldRun := true }

/-- A session in the `Ready` state with no live capture thread. -/
def readySession : Session :=
  { state := State.Ready, threadJoinable := false, shouldRun := false }

/-- C5 counterexample: calling `Start()` while the session is already running
(state `Running`) neither performs `Stop()` (no join) nor restarts anything —
`Start()` returns immediately because the state is not `Ready`. -/
theorem start_while_running_is_noop :
    runningSession.state = State.Running ∧
    (start runningSession).calledStop = false ∧
    (start runningSession).spawned = false ∧
    (start runningSession).session = runningSession := by
  decide

/-- C5 amended: `Start()` is a no-op unless the current state is `Ready` — in
particular while the session is already running; when the state is `Ready` it
first performs a full `Stop()` (joining any existing capture thread) before
spawning the new one, so a capture thread is only ever spawned after the
previous one has been joined. -/
theorem start_guard_behaviour (s : Session) :
    (s.state ≠ State.Ready → start s = ⟨s, false, false⟩) ∧
    (s.state = State.Ready → (start s).calledStop = true ∧
      (start s).spawned = true ∧ (start s).session.threadJoinable = true ∧
      (start s).session.shouldRun = false) ∧
    ((start s).spawned = true → (start s).calledStop = true) := by
  by_cases hs : s.state = State.Ready
  · refine ⟨fun h => absurd hs h, fun _ => ?_, fun _ => ?_⟩ <;>
      simp [start, stop, hs]
  · refine ⟨fun _ => ?_, fun h => absurd h hs, fun hsp => ?_⟩
    · simp [start, hs]
    · rw [show start s = ⟨s, false, false⟩ by simp [start, hs]] at hsp
      exact absurd hsp (by simp)

theorem start_guard_behaviour_witness :
    (start readySession).calledStop = true ∧ (start readySession).spawned = true :=
  ⟨((start_guard_behaviour readySession).2.1 rfl).1,
   ((start_guard_behaviour readySession).2.1 rfl).2.1⟩

/-- `Release()` never touches `dupl_` (helper lemma). -/
theorem release_hasDupl (d : Duplicator) (hr : HResult) :
    (release d hr).hasDupl = d.hasDupl := by
  simp only [release]; split_ifs <;> rfl

/-- `Release()` never touches `device_` (helper lemma). -/
theorem release_hasDevice (d : Duplicator) (hr : HResult) :
    (release d hr).hasDevice = d.hasDevice := by
  simp only [release]; split_ifs <;> rfl

/-- `Release()` never touches the published frame (helper lemma). -/
theorem release_lastFrame (d : Duplicator) (hr : HResult) :
    (release d hr).lastFrame = d.lastFrame := by
  simp only [release]; split_ifs <;> rfl

/-- `Release()` never touches the frame counter (helper lemma). -/
theorem release_lastFrameId (d : Duplicator) (hr : HResult) :
    (release d hr).lastFrameId = d.lastFrameId := by
  simp only [release]; split_ifs <;> rfl

/-- `Release()` never touches the metadata (helper lemma). -/
theorem release_metaData (d : Duplicator) (hr : HResult) :
    (release d hr).metaData = d.metaData := by
  simp only [release]; split_ifs <;> rfl

/-- After `Release()` no frame is held, whatever the input (helper lemma). -/
theorem release_isFrameAcquired (d : Duplicator) (hr : HResult) :
    (release d hr).isFrameAcquired = false := by
  by_cases h : d.isFrameAcquired = false
  · rw [release_not_held d h hr]; exact h
  · simp only [release, h]; split_ifs <;> simp_all

/-- A successful `ReleaseFrame` only clears the held flag (helper lemma). -/
theorem release_success (d : Duplicator) :
    release d S_OK = { d with isFrameAcquired := false } := by
  by_cases h : d.isFrameAcquired = false
  · rw [release_not_held d h S_OK]
    obtain ⟨a1, a2, a3, a4, a5, a6, a7⟩ := d
    dsimp only at h
    subst h
    rfl
  · simp only [Bool.not_eq_false] at h
    simp [release, h, FAILED, S_OK]

/-- The acquisition-failure switch only ever assigns `state_` (helper). -/
theorem acquireFail_isFrameAcquired (d : Duplicator) (hr : HResult) :
    (acquireFail d hr).isFrameAcquired = d.isFrameAcquired := by
  simp only [acquireFail]; split_ifs <;> rfl

theorem acquireFail_lastFrame (d : Duplicator) (hr : HResult) :
    (acquireFail d hr).lastFrame = d.lastFrame := by
  simp only [acquireFail]; split_ifs <;> rfl

theorem acquireFail_lastFrameId (d : Duplicator) (hr : HResult) :
    (acquireFail d hr).lastFrameId = d.lastFrameId := by
  simp only [acquireFail]; split_ifs <;> rfl

/-- `UpdateMetadata` only ever writes `metaData_` (helper). -/
theorem updateMetadata_state (d : Duplicator) (total : Nat) (mhr : HResult)
    (mout : Nat) (dhr : HResult) (dout : Nat) :
    (updateMetadata d total mhr mout dhr dout).1.state = d.state := by
  simp only [updateMetadata, updateMoveRects, updateDirtyRects]
  split_ifs <;> rfl

theorem updateMetadata_isFrameAcquired (d : Duplicator) (total : Nat)
    (mhr : HResult) (mout : Nat) (dhr : HResult) (dout : Nat) :
    (updateMetadata d total mhr mout dhr dout).1.isFrameAcquired =
      d.isFrameAcquired := by
  simp only [updateMetadata, updateMoveRects, updateDirtyRects]
  split_ifs <;> rfl

theorem updateMetadata_lastFrame (d : Duplicator) (total : Nat) (mhr : HResult)
    (mout : Nat) (dhr : HResult) (dout : Nat) :
    (updateMetadata d total mhr mout dhr dout).1.lastFrame = d.lastFrame := by
  simp only [updateMetadata, updateMoveRects, updateDirtyRects]
  split_ifs <;> rfl

theorem updateMetadata_lastFrameId (d : Duplicator) (total : Nat) (mhr : HResult)
    (mout : Nat) (dhr : HResult) (dout : Nat) :
    (updateMetadata d total mhr mout dhr dout).1.lastFrameId = d.lastFrameId := by
  simp only [updateMetadata, updateMoveRects, updateDirtyRects]
  split_ifs <;> rfl

theorem updateMetadata_hasDupl (d : Duplicator) (total : Nat) (mhr : HResult)
    (mout : Nat) (dhr : HResult) (dout : Nat) :
    (updateMetadata d total mhr mout dhr dout).1.hasDupl = d.hasDupl := by
  simp only [updateMetadata, updateMoveRects, updateDirtyRects]
  split_ifs <;> rfl

theorem updateMetadata_hasDevice (d : Duplicator) (total : Nat) (mhr : HResult)
    (mout : Nat) (dhr : HResult) (dout : Nat) :
    (updateMetadata d total mhr mout dhr dout).1.hasDevice = d.hasDevice := by
  simp only [updateMetadata, updateMoveRects, updateDirtyRects]
  split_ifs <;> rfl

/-- After `UpdateMetadata` the buffer holds the running maximum (helper). -/
theorem updateMetadata_buffer_size (d : Duplicator) (total : Nat) (mhr : HResult)
    (mout : Nat) (dhr : HResult) (dout : Nat) :
    (updateMetadata d total mhr mout dhr dout).1.metaData.buffer.size =
      max d.metaData.buffer.size (total % UINT_MOD) := by
  simp only [updateMetadata, MetadataBuffer.expandIfNeeded,
    MetadataBuffer.isEmpty, updateMoveRects, updateDirtyRects]
  split_ifs <;> rfl

/-- On the conversion-failure paths a tick is the entry release followed by
setting the held flag (helper lemma). -/
theorem duplicate_conv_fail_eq (d : Duplicator) (env : TickEnv)
    (hdu : d.hasDupl = true) (hde : d.hasDevice = true)
    (hok : FAILED env.acquireHr = false)
    (hfail : env.resourceAsOk = false ∨ env.sharedTextureOk = false) :
    duplicate d env = { release d env.releaseHr with isFrameAcquired := true } := by
  rcases hfail with h | h
  · simp [duplicate, hdu, hde, hok, h]
  · by_cases h2 : env.resourceAsOk = false
    · simp [duplicate, hdu, hde, hok, h2]
    · simp only [Bool.not_eq_false] at h2
      simp [duplicate, hdu, hde, hok, h, h2]

/-- C8: one metadata-extraction pass grows the buffer to at least the
requested total size (to the running maximum, never shrinking), leaves the
session state unchanged whatever the two request HRESULTs are, and, when the
grown buffer is non-empty, issues the move-rectangle request over the whole
buffer at offset 0 and then the dirty-rectangle request at byte offset
`moveRectSize` with capacity `Size() - moveRectSize` (`UINT` subtraction),
where `moveRectSize` is the byte count the move-rectangle request just
wrote. -/
theorem updateMetadata_requests_and_state (d : Duplicator) (total : Nat)
    (mhr : HResult) (mout : Nat) (dhr : HResult) (dout : Nat)
    (htotal : total < UINT_MOD) :
    (updateMetadata d total mhr mout dhr dout).1.state = d.state ∧
    (updateMetadata d total mhr mout dhr dout).1.metaData.buffer.size =
      max d.metaData.buffer.size total ∧
    d.metaData.buffer.size ≤
      (updateMetadata d total mhr mout dhr dout).1.metaData.buffer.size ∧
    total ≤ (updateMetadata d total mhr mout dhr dout).1.metaData.buffer.size ∧
    (max d.metaData.buffer.size total ≠ 0 →
      (updateMetadata d total mhr mout dhr dout).2.1 =
        some { bufSize := max d.metaData.buffer.size total, offset := 0 } ∧
      (updateMetadata d total mhr mout dhr dout).2.2 =
        some { bufSize := uintSub (max d.metaData.buffer.size total) mout
               offset := mout % UINT_MOD } ∧
      (updateMetadata d total mhr mout dhr dout).1.metaData.moveRectSize =
        mout % UINT_MOD ∧
      (updateMetadata d total mhr mout dhr dout).1.metaData.dirtyRectSize =
        dout % UINT_MOD) := by
  have hmod : total % UINT_MOD = total := Nat.mod_eq_of_lt htotal
  refine ⟨updateMetadata_state d total mhr mout dhr dout, ?_, ?_, ?_, ?_⟩
  · rw [updateMetadata_buffer_size, hmod]
  · rw [updateMetadata_buffer_size, hmod]; exact Nat.le_max_left _ _
  · rw [updateMetadata_buffer_size, hmod]; exact Nat.le_max_right _ _
  · intro hne
    simp only [updateMetadata, MetadataBuffer.expandIfNeeded,
      MetadataBuffer.isEmpty, updateMoveRects, updateDirtyRects, hmod]
    simp [hne, uintSub, Nat.mod_mod]

theorem updateMetadata_requests_and_state_witness :
    (updateMetadata (initialDuplicator State.Running) 8 S_OK 4 S_OK 4).1.state =
      (initialDuplicator State.Running).state :=
  (updateMetadata_requests_and_state (initialDuplicator State.Running) 8 S_OK 4
    S_OK 4 (by decide)).1

/-- The tick environment of the C10 counterexample: the pending release of the
held frame fails with access-lost, acquisition then succeeds, but the
resource-to-texture conversion fails. -/
def convFailAfterLostReleaseEnv : TickEnv :=
  { releaseHr := DXGI_ERROR_ACCESS_LOST
    acquireHr := S_OK
    frameInfo := { totalMetadataBufferSize := 0, pointerVisible := false }
    resourceAsOk := false
    sharedTextureOk := true
    moveHr := S_OK
    moveOut := 0
    dirtyHr := S_OK
    dirtyOut := 0 }

/-- C10 counterexample: a tick whose acquisition succeeds and whose conversion
fails can still change the state — the entry release of the frame held from
the previous tick fails with access-lost and moves the state from `Running`
to `AccessLost`, so "returns early with the session state unchanged" is false
for the tick as a whole. -/
theorem duplicate_conv_fail_state_can_change :
    heldFrameDup.state = State.Running ∧
    FAILED convFailAfterLostReleaseEnv.acquireHr = false ∧
    convFailAfterLostReleaseEnv.resourceAsOk = false ∧
    (duplicate heldFrameDup convFailAfterLostReleaseEnv).state =
      State.AccessLost := by
  decide

/-- C10 amended: when acquisition succeeds but the resource-to-texture
conversion fails or the shared-texture allocation returns null, the tick
returns early: the state is exactly the state left by the tick's entry
release of any previously held frame (hence unchanged from before the tick
whenever no frame was held at entry), the published frame and its sequence id
are untouched, the acquired frame stays marked held, and any next `Duplicate`
call clears the held flag by releasing first. -/
theorem duplicate_conversion_failure_early_return (d : Duplicator)
    (env : TickEnv) (hdu : d.hasDupl = true) (hde : d.hasDevice = true)
    (hok : FAILED env.acquireHr = false)
    (hfail : env.resourceAsOk = false ∨ env.sharedTextureOk = false) :
    (duplicate d env).state = (release d env.releaseHr).state ∧
    (d.isFrameAcquired = false → (duplicate d env).state = d.state) ∧
    (duplicate d env).lastFrame = d.lastFrame ∧
    (duplicate d env).lastFrameId = d.lastFrameId ∧
    (duplicate d env).isFrameAcquired = true ∧
    (∀ env2 : TickEnv, FAILED env2.acquireHr = true →
      (duplicate (duplicate d env) env2).isFrameAcquired = false) := by
  rw [duplicate_conv_fail_eq d env hdu hde hok hfail]
  refine ⟨rfl, fun h0 => ?_, ?_, ?_, rfl, fun env2 hf2 => ?_⟩
  · rw [show ({ release d env.releaseHr with isFrameAcquired := true } :
      Duplicator).state = (release d env.releaseHr).state from rfl,
      release_not_held d h0 env.releaseHr]
  · exact release_lastFrame d env.releaseHr
  · exact release_lastFrameId d env.releaseHr
  · have hdu2 : ({ release d env.releaseHr with isFrameAcquired := true } :
        Duplicator).hasDupl = true := by
      rw [show ({ release d env.releaseHr with isFrameAcquired := true } :
        Duplicator).hasDupl = (release d env.releaseHr).hasDupl from rfl,
        release_hasDupl]
      exact hdu
    have hde2 : ({ release d env.releaseHr with isFrameAcquired := true } :
        Duplicator).hasDevice = true := by
      rw [show ({ release d env.releaseHr with isFrameAcquired := true } :
        Duplicator).hasDevice = (release d env.releaseHr).hasDevice from rfl,
        release_hasDevice]
      exact hde
    rw [duplicate_fail_eq _ env2 hdu2 hde2 hf2, acquireFail_isFrameAcquired,
      release_isFrameAcquired]

theorem duplicate_conversion_failure_early_return_witness :
    (duplicate heldFrameDup convFailAfterLostReleaseEnv).isFrameAcquired =
      true :=
  (duplicate_conversion_failure_early_return heldFrameDup
    convFailAfterLostReleaseEnv rfl rfl (by decide) (Or.inl rfl)).2.2.2.2.1

theorem acquireFail_hasDupl (d : Duplicator) (hr : HResult) :
    (acquireFail d hr).hasDupl = d.hasDupl := by
  simp only [acquireFail]; split_ifs <;> rfl

theorem acquireFail_hasDevice (d : Duplicator) (hr : HResult) :
    (acquireFail d hr).hasDevice = d.hasDevice := by
  simp only [acquireFail]; split_ifs <;> rfl

/-- No tick ever touches `dupl_` (helper lemma). -/
theorem duplicate_hasDupl (d : Duplicator) (env : TickEnv) :
    (duplicate d env).hasDupl = d.hasDupl := by
  simp only [duplicate]
  split_ifs <;>
    simp [updateMetadata_hasDupl, release_hasDupl, acquireFail_hasDupl]

/-- No tick ever touches `device_` (helper lemma). -/
theorem duplicate_hasDevice (d : Duplicator) (env : TickEnv) :
    (duplicate d env).hasDevice = d.hasDevice := by
  simp only [duplicate]
  split_ifs <;>
    simp [updateMetadata_hasDevice, release_hasDevice, acquireFail_hasDevice]

/-- On a fully successful tick the metadata buffer grows to the running
maximum of its old size and the requested total size (helper lemma). -/
theorem duplicate_success_buffer (d : Duplicator) (env : TickEnv)
    (hdu : d.hasDupl = true) (hde : d.hasDevice = true)
    (hok : FAILED env.acquireHr = false) (hres : env.resourceAsOk = true)
    (hsh : env.sharedTextureOk = true) :
    (duplicate d env).metaData.buffer.size =
      max d.metaData.buffer.size
        (env.frameInfo.totalMetadataBufferSize % UINT_MOD) := by
  simp [duplicate, hdu, hde, hok, hres, hsh, updateMetadata_buffer_size,
    release_metaData]

/-- A tick environment in which every driver call succeeds. -/
def TickEnv.fullySucceeds (e : TickEnv) : Prop :=
  FAILED e.acquireHr = false ∧ e.resourceAsOk = true ∧ e.sharedTextureOk = true

instance (e : TickEnv) : Decidable (TickEnv.fullySucceeds e) :=
  inferInstanceAs (Decidable (FAILED e.acquireHr = false ∧
    e.resourceAsOk = true ∧ e.sharedTextureOk = true))

/-- Folding `Duplicate` over a list of tick environments (helper). -/
def runTicks (d : Duplicator) (envs : List TickEnv) : Duplicator :=
  envs.foldl duplicate d

/-- C7: across every sequence of fully successful ticks, the metadata buffer
capacity equals the fold of `max` over all requested
`TotalMetadataBufferSize` values (the largest size ever requested, starting
from the initial capacity), and in particular it never decreases — even when
the requested size shrinks between frames. -/
theorem metadata_buffer_capacity_running_max (d : Duplicator)
    (envs : List TickEnv) (hdu : d.hasDupl = true) (hde : d.hasDevice = true)
    (hall : ∀ e ∈ envs, TickEnv.fullySucceeds e)
    (hsz : ∀ e ∈ envs, e.frameInfo.totalMetadataBufferSize < UINT_MOD) :
    (runTicks d envs).metaData.buffer.size =
      envs.foldl (fun acc e => max acc e.frameInfo.totalMetadataBufferSize)
        d.metaData.buffer.size ∧
    d.metaData.buffer.size ≤ (runTicks d envs).metaData.buffer.size := by
  revert hdu hde hall hsz
  induction envs generalizing d with
  | nil => intro _ _ _ _; exact ⟨rfl, Nat.le_refl _⟩
  | cons e rest ih =>
    intro hdu hde hall hsz
    obtain ⟨hok, hres, hsh⟩ := hall e (List.mem_cons_self e rest)
    have hesz := hsz e (List.mem_cons_self e rest)
    have hbuf : (duplicate d e).metaData.buffer.size =
        max d.metaData.buffer.size e.frameInfo.totalMetadataBufferSize := by
      rw [duplicate_success_buffer d e hdu hde hok hres hsh,
        Nat.mod_eq_of_lt hesz]
    have hdu2 : (duplicate d e).hasDupl = true := by
      rw [duplicate_hasDupl]; exact hdu
    have hde2 : (duplicate d e).hasDevice = true := by
      rw [duplicate_hasDevice]; exact hde
    have ih2 := ih (duplicate d e) hdu2 hde2
      (fun x hx => hall x (List.mem_cons_of_mem e hx))
      (fun x hx => hsz x (List.mem_cons_of_mem e hx))
    constructor
    · show (runTicks (duplicate d e) rest).metaData.buffer.size = _
      rw [ih2.1, hbuf]
      rfl
    · show d.metaData.buffer.size ≤
        (runTicks (duplicate d e) rest).metaData.buffer.size
      exact Nat.le_trans (hbuf ▸ Nat.le_max_left _ _) ih2.2

/-- The metadata record of a fresh duplicator. -/
def md0 : MetaData :=
  { buffer := { size := 0 }, moveRectSize := 0, dirtyRectSize := 0 }

/-- The frame info of an idle successful tick: no metadata bytes, pointer not
visible. -/
def info0 : FrameInfo := { totalMetadataBufferSize := 0, pointerVisible := false }

/-- A tick environment in which every driver call succeeds and no metadata is
reported. -/
def successEnv : TickEnv :=
  { releaseHr := S_OK
    acquireHr := S_OK
    frameInfo := info0
    resourceAsOk := true
    sharedTextureOk := true
    moveHr := S_OK
    moveOut := 0
    dirtyHr := S_OK
    dirtyOut := 0 }

/-- A fully successful tick environment requesting `n` metadata bytes. -/
def sizeEnv (n : Nat) : TickEnv :=
  { releaseHr := S_OK
    acquireHr := S_OK
    frameInfo := { totalMetadataBufferSize := n, pointerVisible := false }
    resourceAsOk := true
    sharedTextureOk := true
    moveHr := S_OK
    moveOut := 0
    dirtyHr := S_OK
    dirtyOut := 0 }

/-- A freshly constructed duplicator whose capture loop has just started. -/
def cleanDup : Duplicator :=
  { state := State.Running
    isFrameAcquired := false
    lastFrameId := 0
    lastFrame := none
    metaData := md0
    hasDupl := true
    hasDevice := true }

theorem metadata_buffer_capacity_running_max_witness :
    (runTicks cleanDup [sizeEnv 4096, sizeEnv 1024]).metaData.buffer.size =
      [sizeEnv 4096, sizeEnv 1024].foldl
        (fun acc e => max acc e.frameInfo.totalMetadataBufferSize)
        cleanDup.metaData.buffer.size :=
  (metadata_buffer_capacity_running_max cleanDup [sizeEnv 4096, sizeEnv 1024]
    rfl rfl (by decide) (by decide)).1

/-- One fully successful idle tick in closed form (helper lemma). -/
theorem successTick_step (d : Duplicator) (hdu : d.hasDupl = true)
    (hde : d.hasDevice = true) (hmd : d.metaData = md0) :
    duplicate d successEnv =
      { d with
        isFrameAcquired := true
        lastFrame := some { id := d.lastFrameId, info := info0, metaData := md0 }
        lastFrameId := (d.lastFrameId + 1) % UINT_MOD } := by
  obtain ⟨a1, a2, a3, a4, a5, a6, a7⟩ := d
  dsimp only at hdu hde hmd
  subst hdu hde hmd
  cases a2 <;> rfl

/-- `n` consecutive fully successful idle ticks from a fresh running
duplicator. -/
def ticks : Nat → Duplicator
  | 0 => cleanDup
  | n + 1 => duplicate (ticks n) successEnv

/-- Stepping the `UINT` frame counter commutes with the modulus (helper). -/
theorem mod_succ_step (k : Nat) :
    (k % UINT_MOD + 1) % UINT_MOD = (k + 1) % UINT_MOD := by
  conv_rhs => rw [Nat.add_mod]
  norm_num [UINT_MOD]

/-- Closed form of `n` successful ticks (helper lemma). -/
theorem ticks_eq (n : Nat) :
    ticks n = { cleanDup with
      isFrameAcquired := decide (n ≠ 0)
      lastFrame := if n = 0 then none else
        some { id := (n - 1) % UINT_MOD, info := info0, metaData := md0 }
      lastFrameId := n % UINT_MOD } := by
  induction n with
  | zero => rfl
  | succ k ih =>
    rw [show ticks (k + 1) = duplicate (ticks k) successEnv from rfl, ih,
      successTick_step _ rfl rfl rfl]
    simp [mod_succ_step]

/-- The sequence id published by the last of `n` successful ticks (0 when no
frame has been published yet). -/
def pubId (n : Nat) : Nat := ((ticks n).lastFrame.map Frame.id).getD 0

/-- C6 counterexample: `lastFrameId_` is a 32-bit `UINT` and wraps — the
4294967296-th successful tick publishes sequence id 4294967295 and the
4294967297-th publishes 0, so across an unbounded sequence of successful
ticks the published sequence id is not strictly increasing: it decreases (and
later repeats) after the counter overflows. -/
theorem sequence_id_wraps :
    pubId UINT_MOD = UINT_MOD - 1 ∧ pubId (UINT_MOD + 1) = 0 ∧
    pubId (UINT_MOD + 1) < pubId UINT_MOD := by
  have h1 : pubId UINT_MOD = UINT_MOD - 1 := by
    unfold pubId
    rw [ticks_eq]
    norm_num [UINT_MOD]
  have h2 : pubId (UINT_MOD + 1) = 0 := by
    unfold pubId
    rw [ticks_eq]
    norm_num [UINT_MOD]
  refine ⟨h1, h2, ?_⟩
  rw [h1, h2]
  norm_num [UINT_MOD]

/-- `2^32` is positive (helper). -/
theorem UINT_MOD_pos : 0 < UINT_MOD := by norm_num [UINT_MOD]

/-- On a fully successful tick the `UINT` frame counter steps by one modulo
`2^32` (helper lemma). -/
theorem duplicate_success_lastFrameId (d : Duplicator) (env : TickEnv)
    (hdu : d.hasDupl = true) (hde : d.hasDevice = true)
    (hok : FAILED env.acquireHr = false) (hres : env.resourceAsOk = true)
    (hsh : env.sharedTextureOk = true) :
    (duplicate d env).lastFrameId = (d.lastFrameId + 1) % UINT_MOD := by
  simp [duplicate, hdu, hde, hok, hres, hsh, updateMetadata_lastFrameId,
    release_lastFrameId]

/-- A fully successful tick publishes exactly one new snapshot whose sequence
id is the pre-increment counter value (helper lemma). -/
theorem duplicate_success_pubFrameId (d : Duplicator) (env : TickEnv)
    (hdu : d.hasDupl = true) (hde : d.hasDevice = true)
    (hok : FAILED env.acquireHr = false) (hres : env.resourceAsOk = true)
    (hsh : env.sharedTextureOk = true) :
    ((duplicate d env).lastFrame.map Frame.id) = some d.lastFrameId := by
  simp [duplicate, hdu, hde, hok, hres, hsh, updateMetadata_lastFrameId,
    release_lastFrameId]

/-- No run of ticks ever touches `dupl_` (helper lemma). -/
theorem runTicks_hasDupl (d : Duplicator) (envs : List TickEnv) :
    (runTicks d envs).hasDupl = d.hasDupl := by
  induction envs generalizing d with
  | nil => rfl
  | cons e rest ih =>
    rw [show runTicks d (e :: rest) = runTicks (duplicate d e) rest from rfl,
      ih, duplicate_hasDupl]

/-- No run of ticks ever touches `device_` (helper lemma). -/
theorem runTicks_hasDevice (d : Duplicator) (envs : List TickEnv) :
    (runTicks d envs).hasDevice = d.hasDevice := by
  induction envs generalizing d with
  | nil => rfl
  | cons e rest ih =>
    rw [show runTicks d (e :: rest) = runTicks (duplicate d e) rest from rfl,
      ih, duplicate_hasDevice]

/-- Over a run of fully successful ticks the `UINT` frame counter advances by
the number of ticks modulo `2^32`, and the last published snapshot carries
the counter value held when it was published (helper lemma). -/
theorem runTicks_success_id (envs : List TickEnv) :
    ∀ d : Duplicator, d.hasDupl = true → d.hasDevice = true →
      (∀ e ∈ envs, TickEnv.fullySucceeds e) → d.lastFrameId < UINT_MOD →
      (runTicks d envs).lastFrameId =
        (d.lastFrameId + envs.length) % UINT_MOD ∧
      (envs ≠ [] →
        ((runTicks d envs).lastFrame.map Frame.id) =
          some ((d.lastFrameId + envs.length - 1) % UINT_MOD)) := by
  induction envs with
  | nil =>
    intro d _ _ _ hlt
    refine ⟨?_, fun h => absurd rfl h⟩
    show d.lastFrameId = (d.lastFrameId + 0) % UINT_MOD
    rw [Nat.add_zero, Nat.mod_eq_of_lt hlt]
  | cons e rest ih =>
    intro d hdu hde hall hlt
    obtain ⟨hok, hres, hsh⟩ := hall e (List.mem_cons_self e rest)
    have hstep := duplicate_success_lastFrameId d e hdu hde hok hres hsh
    have hdu2 : (duplicate d e).hasDupl = true := by
      rw [duplicate_hasDupl]; exact hdu
    have hde2 : (duplicate d e).hasDevice = true := by
      rw [duplicate_hasDevice]; exact hde
    have hlt2 : (duplicate d e).lastFrameId < UINT_MOD := by
      rw [hstep]; exact Nat.mod_lt _ UINT_MOD_pos
    have ih2 := ih (duplicate d e) hdu2 hde2
      (fun x hx => hall x (List.mem_cons_of_mem e hx)) hlt2
    constructor
    · show (runTicks (duplicate d e) rest).lastFrameId = _
      rw [ih2.1, hstep, Nat.mod_add_mod, List.length_cons,
        show d.lastFrameId + (rest.length + 1) =
          d.lastFrameId + 1 + rest.length from by omega]
    · intro _
      rcases rest with _ | ⟨r1, rrest⟩
      · show ((duplicate d e).lastFrame.map Frame.id) = _
        rw [duplicate_success_pubFrameId d e hdu hde hok hres hsh]
        congr 1
        rw [List.length_cons, List.length_nil, Nat.zero_add,
          Nat.add_sub_cancel, Nat.mod_eq_of_lt hlt]
      · show ((runTicks (duplicate d e) (r1 :: rrest)).lastFrame.map
          Frame.id) = _
        rw [ih2.2 (by simp), hstep]
        congr 1
        rw [List.length_cons, List.length_cons, List.length_cons,
          show (d.lastFrameId + 1) % UINT_MOD + (rrest.length + 1) - 1 =
            (d.lastFrameId + 1) % UINT_MOD + rrest.length from by omega,
          Nat.mod_add_mod,
          show d.lastFrameId + (rrest.length + 1 + 1) - 1 =
            d.lastFrameId + 1 + rrest.length from by omega]

/-- One more tick of a prefix run (helper lemma). -/
theorem runTicks_take_succ (d0 : Duplicator) (envs : List TickEnv) (k : Nat)
    (hk : k < envs.length) :
    runTicks d0 (envs.take (k + 1)) =
      duplicate (runTicks d0 (envs.take k)) envs[k] := by
  unfold runTicks
  rw [List.take_succ, List.foldl_append]
  simp [List.getElem?_eq_getElem hk]

/-- C6 amended: along every run of fully successful ticks from a fresh
session, each tick publishes exactly one new snapshot whose sequence id is
the pre-tick `UINT` counter value, the counter stepping modulo `2^32`; the
published sequence ids are strictly increasing as long as no more than
`2^32` successful ticks have occurred (beyond that the counter wraps, see
the wrap counterexample). -/
theorem published_id_strict_mono (d0 : Duplicator) (envs : List TickEnv)
    (hdu : d0.hasDupl = true) (hde : d0.hasDevice = true)
    (hid : d0.lastFrameId = 0)
    (hall : ∀ e ∈ envs, TickEnv.fullySucceeds e)
    (m n : Nat) (hm : 0 < m) (hmn : m < n) (hn : n ≤ envs.length)
    (hwrap : n ≤ UINT_MOD) :
    (∀ k, k < envs.length →
      ((runTicks d0 (envs.take (k + 1))).lastFrame.map Frame.id) =
        some ((runTicks d0 (envs.take k)).lastFrameId) ∧
      (runTicks d0 (envs.take (k + 1))).lastFrameId =
        ((runTicks d0 (envs.take k)).lastFrameId + 1) % UINT_MOD) ∧
    ((runTicks d0 (envs.take m)).lastFrame.map Frame.id).getD 0 = m - 1 ∧
    ((runTicks d0 (envs.take n)).lastFrame.map Frame.id).getD 0 = n - 1 ∧
    ((runTicks d0 (envs.take m)).lastFrame.map Frame.id).getD 0 <
      ((runTicks d0 (envs.take n)).lastFrame.map Frame.id).getD 0 := by
  have hpub : ∀ k, 0 < k → k ≤ envs.length → k ≤ UINT_MOD →
      ((runTicks d0 (envs.take k)).lastFrame.map Frame.id).getD 0 = k - 1 := by
    intro k hk hkl hkM
    have hlen : (envs.take k).length = k := by
      rw [List.length_take]
      exact Nat.min_eq_left hkl
    have hne : envs.take k ≠ [] := by
      intro hc
      rw [hc, List.length_nil] at hlen
      exact Nat.pos_iff_ne_zero.mp hk hlen.symm
    have hinv := (runTicks_success_id (envs.take k) d0 hdu hde
      (fun e he => hall e (List.take_subset k envs he))
      (by rw [hid]; exact UINT_MOD_pos)).2 hne
    rw [hid, hlen] at hinv
    rw [hinv, show (0 + k - 1) % UINT_MOD = k - 1 from by
      rw [Nat.zero_add]
      exact Nat.mod_eq_of_lt
        (Nat.lt_of_lt_of_le (Nat.sub_lt hk Nat.one_pos) hkM)]
    rfl
  have hmlen : m ≤ envs.length := Nat.le_of_lt (Nat.lt_of_lt_of_le hmn hn)
  have hmM : m ≤ UINT_MOD := Nat.le_of_lt (Nat.lt_of_lt_of_le hmn hwrap)
  have hnpos : 0 < n := Nat.lt_of_le_of_lt (Nat.zero_le m) hmn
  refine ⟨fun k hk => ?_, hpub m hm hmlen hmM, hpub n hnpos hn hwrap, ?_⟩
  · have hduk : (runTicks d0 (envs.take k)).hasDupl = true := by
      rw [runTicks_hasDupl]; exact hdu
    have hdek : (runTicks d0 (envs.take k)).hasDevice = true := by
      rw [runTicks_hasDevice]; exact hde
    obtain ⟨hok, hres, hsh⟩ := hall envs[k] (List.getElem_mem hk)
    constructor
    · rw [runTicks_take_succ d0 envs k hk]
      exact duplicate_success_pubFrameId _ envs[k] hduk hdek hok hres hsh
    · rw [runTicks_take_succ d0 envs k hk]
      exact duplicate_success_lastFrameId _ envs[k] hduk hdek hok hres hsh
  · rw [hpub m hm hmlen hmM, hpub n hnpos hn hwrap]
    exact Nat.sub_lt_sub_right hm hmn

theorem published_id_strict_mono_witness :
    ((runTicks cleanDup ([sizeEnv 4096, sizeEnv 1024].take 1)).lastFrame.map
        Frame.id).getD 0 <
      ((runTicks cleanDup ([sizeEnv 4096, sizeEnv 1024].take 2)).lastFrame.map
        Frame.id).getD 0 :=
  (published_id_strict_mono cleanDup [sizeEnv 4096, sizeEnv 1024] rfl rfl rfl
    (by decide) 1 2 (by decide) (by decide) (by decide) (by decide)).2.2.2

end UDesktopDuplication
